import Mathlib

/-!
A verification development for a digital-document-verification frontend.

The program registers a document by staging it with a backend, optionally
anchoring it on a ledger through a wallet, and confirming; it verifies a
presented file by comparing a freshly computed SHA-256 fingerprint with
backend-reported state through a layered reconciliation strategy.

The repository ships the register/verify logic in two ledger-enabled
variants of the same script (a web3-style one and an ethers-style one)
plus a backend-only one; both reconcilers with the full five-step
precedence are byte-identical, so they are embedded once below.  All
definitions are straight translations of the JavaScript source; external
collaborators (backend HTTP replies, the wallet, the registry listing)
are inputs describing the result of each call.
-/

/-! ## JavaScript string primitives

String helpers mirroring the JavaScript operations the source uses:
`String.prototype.includes`, `toLowerCase` (the data is ASCII hex and
ASCII reason text, where `Char.toLower` agrees with JavaScript), the
`replace(/^0x/, "")` prefix strip, and truthiness of an optional string
field (absent or empty is falsy). -/

/-- Does the first list lead the second (needle read off from the front)? -/
def leadsWith : List Char → List Char → Bool
  | [], _ => true
  | _ :: _, [] => false
  | a :: as, b :: bs => if a = b then leadsWith as bs else false

/-- Does the needle occur contiguously anywhere in the haystack? -/
def occursInL (needle : List Char) : List Char → Bool
  | [] => needle.isEmpty
  | h :: t => leadsWith needle (h :: t) || occursInL needle t

/-- JavaScript `hay.includes(needle)`. -/
def occursIn (needle hay : String) : Bool := occursInL needle.data hay.data

/-- Per-character lower-casing, as JavaScript `toLowerCase` acts on the
ASCII strings this program compares. -/
def lowerStr (s : String) : String := String.mk (s.data.map Char.toLower)

/-- JavaScript `s.replace(/^0x/, "")`: drop one literal `0x` lead. -/
def stripHexMark (s : String) : String :=
  match s.data with
  | c0 :: c1 :: rest => if c0 = '0' ∧ c1 = 'x' then String.mk rest else s
  | _ => s

/-- The normalisation both sides of every hash comparison get in the
source: `String(h).replace(/^0x/, "").toLowerCase()`. -/
def normalizeHash (s : String) : String := lowerStr (stripHexMark s)

/-- JavaScript truthiness of an optional string field: absent,
`null`, and the empty string are falsy. -/
def truthy : Option String → Bool
  | none => false
  | some s => if s = "" then false else true

/-- Read an optional string field the way the display code does after a
truthiness check (absent reads as the empty string). -/
def jsStr : Option String → String
  | none => ""
  | some s => s

/-! ## Data model -/

/-- A backend reply to `POST /verify`:
`{verified, computed_hash?, documentID?, blockchain_tx?, stored_hash?, reason?}`. -/
structure VerifyReply where
  verified : Bool
  reason : Option String
  stored_hash : Option String
  documentID : Option String
  blockchain_tx : Option String
  computed_hash : Option String
deriving DecidableEq

/-- One record of the backend document registry as the frontend reads it
from `GET /api/documents`. -/
structure DocumentRecord where
  documentID : String
  fileName : Option String
  fileHash : Option String
  registered : Bool
  blockchainTx : Option String
deriving DecidableEq

/-- Result of the fallback registry-listing fetch: the fetch or its JSON
parse threw, or it produced a non-array value, or a list of records. -/
inductive RegistryFetch
  | fetchError
  | nonArray
  | docs (ds : List DocumentRecord)
deriving DecidableEq

/-- The outcome a verification attempt renders. -/
inductive VOutcome
  | verified (hash : String) (documentID blockchainTx : Option String)
  | notRegistered (computed : String)
  | tampered (computed : String) (storedHash documentID blockchainTx : Option String)
  | reconciliationFailed (reason : Option String)
  | serverError
deriving DecidableEq

/-- The backend endpoints the frontend can hit, with the payload of the
two mutating ones. -/
inductive Endpoint
  | verifyReq
  | documentsList
  | statsReq
  | historyReq
  | contractReq
  | uploadReq (record : DocumentRecord)
  | confirmReq (documentID txHash : String)
deriving DecidableEq

/-! ## Verification reconciler

Straight translation of `verifyBtn.onclick` from `frontend/script.js`
(identical in the web3 variant): verified flag, then the two
reason-substring classifiers, then the stored-hash comparison, then the
client-side registry scan, with the scan failure reported separately.
Each branch also records the requests it makes (`/verify`, then
`loadStats` → `/api/stats` and `loadHistory` → `/api/history`, and for
the fallback `/api/documents`). -/

/-- `reason.toLowerCase()` contains "not" and one of "register",
"found", "not on", "not_registered". -/
def isNotRegisteredReason (r : String) : Bool :=
  let rl := lowerStr r
  occursIn "not" rl &&
    (occursIn "register" rl || occursIn "found" rl ||
     occursIn "not on" rl || occursIn "not_registered" rl)

/-- `reason.toLowerCase()` contains "tamper", "mismatch", or
"hash mismatch". -/
def isTamperReason (r : String) : Bool :=
  let rl := lowerStr r
  occursIn "tamper" rl || occursIn "mismatch" rl || occursIn "hash mismatch" rl

/-- The predicate of the fallback scan:
`(d.fileHash || "").replace(/^0x/,"").toLowerCase()` is nonempty and
equals the normalised computed hash. -/
def fallbackMatchPred (computedHash : String) (r : DocumentRecord) : Bool :=
  let fh := normalizeHash (jsStr r.fileHash)
  decide (fh ≠ "" ∧ fh = normalizeHash computedHash)

/-- The requests made once a pre-scan branch decides: the verify call
plus `loadStats` and `loadHistory`. -/
def decidedCalls : List Endpoint := [.verifyReq, .statsReq, .historyReq]

/-- The client-side registry lookup at the end of the verify handler,
with the requests it issues. On a thrown fetch or parse the handler
reports a distinct failure and only reloads history. -/
def fallbackRun (computedHash : String) (reason : Option String)
    (registry : RegistryFetch) : VOutcome × List Endpoint :=
  match registry with
  | .fetchError =>
      (.reconciliationFailed reason, [.verifyReq, .documentsList, .historyReq])
  | .nonArray =>
      (.notRegistered computedHash, [.verifyReq, .documentsList, .statsReq, .historyReq])
  | .docs ds =>
      (match ds.find? (fallbackMatchPred computedHash) with
       | some m =>
           .verified (if truthy m.fileHash = true then jsStr m.fileHash else computedHash)
             (some m.documentID) m.blockchainTx
       | none => .notRegistered computedHash,
       [.verifyReq, .documentsList, .statsReq, .historyReq])

/-- The whole verify handler after the fingerprint guard: the reply is
`.error` when the `/verify` fetch threw (outer catch), `.ok none` when
its body failed to parse (`data = null`), else the parsed reply. -/
def verifyRun (computedHash : String) (reply : Except Unit (Option VerifyReply))
    (registry : RegistryFetch) : VOutcome × List Endpoint :=
  match reply with
  | .error _ => (.serverError, [.verifyReq, .historyReq])
  | .ok none => fallbackRun computedHash none registry
  | .ok (some d) =>
    if d.verified = true then
      (.verified (if truthy d.computed_hash = true then jsStr d.computed_hash else computedHash)
         d.documentID d.blockchain_tx, decidedCalls)
    else if truthy d.reason = true ∧ isNotRegisteredReason (jsStr d.reason) = true then
      (.notRegistered computedHash, decidedCalls)
    else if truthy d.reason = true ∧ isTamperReason (jsStr d.reason) = true then
      (.tampered computedHash d.stored_hash d.documentID d.blockchain_tx, decidedCalls)
    else if truthy d.stored_hash = true then
      if normalizeHash (jsStr d.stored_hash) ≠ "" ∧
          normalizeHash (jsStr d.stored_hash) ≠ normalizeHash computedHash then
        (.tampered computedHash d.stored_hash d.documentID d.blockchain_tx, decidedCalls)
      else if normalizeHash (jsStr d.stored_hash) ≠ "" ∧
          normalizeHash (jsStr d.stored_hash) = normalizeHash computedHash then
        (.verified computedHash d.documentID d.blockchain_tx, decidedCalls)
      else fallbackRun computedHash d.reason registry
    else fallbackRun computedHash d.reason registry

/-- The outcome a verification attempt renders. -/
def verifyOutcome (computedHash : String) (reply : Except Unit (Option VerifyReply))
    (registry : RegistryFetch) : VOutcome :=
  (verifyRun computedHash reply registry).1

/-- The backend requests a verification attempt issues. -/
def verifyCalls (computedHash : String) (reply : Except Unit (Option VerifyReply))
    (registry : RegistryFetch) : List Endpoint :=
  (verifyRun computedHash reply registry).2

/-- The outcome of the fallback scan alone. -/
def fallbackScanOutcome (computedHash : String) (reason : Option String)
    (registry : RegistryFetch) : VOutcome :=
  (fallbackRun computedHash reason registry).1

/-- Does the reply escape every pre-scan strategy (no verified flag, no
classified reason, no nonempty normalised stored hash), so that the
handler reaches the fallback registry scan? -/
def reachesFallback (reply : Except Unit (Option VerifyReply)) : Bool :=
  match reply with
  | .error _ => false
  | .ok none => true
  | .ok (some d) =>
    if d.verified = true then false
    else if truthy d.reason = true ∧ isNotRegisteredReason (jsStr d.reason) = true then false
    else if truthy d.reason = true ∧ isTamperReason (jsStr d.reason) = true then false
    else if truthy d.stored_hash = true then
      decide (normalizeHash (jsStr d.stored_hash) = "")
    else true

/-- The reason field carried to the fallback (the handler threads
`data?.reason` into the scan-failure report). -/
def replyReason (reply : Except Unit (Option VerifyReply)) : Option String :=
  match reply with
  | .ok (some d) => d.reason
  | _ => none

/-! ## Hasher

`handleFile` hashes the selected bytes with
`crypto.subtle.digest("SHA-256", buffer)` and renders the digest with
`map(b => b.toString(16).padStart(2, "0")).join("")`.  SHA-256 itself is
the platform primitive, embedded here as the FIPS 180-4 algorithm over
byte lists, with 32-bit words as naturals reduced mod 2^32. -/

/-- Reduce to a 32-bit word. -/
def w32 (n : Nat) : Nat := n % 4294967296

/-- Right-rotate a 32-bit word by `n` places. -/
def rotr (n x : Nat) : Nat := x / 2 ^ n + x % 2 ^ n * 2 ^ (32 - n)

/-- SHA-256 choose function. -/
def chFun (x y z : Nat) : Nat := (x &&& y) ^^^ ((x ^^^ 4294967295) &&& z)

/-- SHA-256 majority function. -/
def majFun (x y z : Nat) : Nat := (x &&& y) ^^^ (x &&& z) ^^^ (y &&& z)

/-- SHA-256 schedule sigma-0. -/
def smallSigma0 (x : Nat) : Nat := rotr 7 x ^^^ rotr 18 x ^^^ x / 2 ^ 3

/-- SHA-256 schedule sigma-1. -/
def smallSigma1 (x : Nat) : Nat := rotr 17 x ^^^ rotr 19 x ^^^ x / 2 ^ 10

/-- SHA-256 round Sigma-0. -/
def bigSigma0 (x : Nat) : Nat := rotr 2 x ^^^ rotr 13 x ^^^ rotr 22 x

/-- SHA-256 round Sigma-1. -/
def bigSigma1 (x : Nat) : Nat := rotr 6 x ^^^ rotr 11 x ^^^ rotr 25 x

/-- The eight 32-bit words of a SHA-256 chaining state or digest. -/
structure Digest8 where
  a : Nat
  b : Nat
  c : Nat
  d : Nat
  e : Nat
  f : Nat
  g : Nat
  h : Nat
deriving DecidableEq

/-- The SHA-256 initial chaining state (the FIPS 180-4 H values, here
written in decimal). -/
def sha256Init : Digest8 :=
  ⟨1779033703, 3144134277, 1013904242, 2773480762,
   1359893119, 2600822924, 528734635, 1541459225⟩

/-- The 64 SHA-256 round constants (the FIPS 180-4 K values, here
written in decimal). -/
def sha256K : List Nat :=
  [1116352408, 1899447441, 3049323471, 3921009573, 961987163, 1508970993,
   2453635748, 2870763221, 3624381080, 310598401, 607225278, 1426881987,
   1925078388, 2162078206, 2614888103, 3248222580, 3835390401, 4022224774,
   264347078, 604807628, 770255983, 1249150122, 1555081692, 1996064986,
   2554220882, 2821834349, 2952996808, 3210313671, 3336571891, 3584528711,
   113926993, 338241895, 666307205, 773529912, 1294757372, 1396182291,
   1695183700, 1986661051, 2177026350, 2456956037, 2730485921, 2820302411,
   3259730800, 3345764771, 3516065817, 3600352804, 4094571909, 275423344,
   430227734, 506948616, 659060556, 883997877, 958139571, 1322822218,
   1537002063, 1747873779, 1955562222, 2024104815, 2227730452, 2361852424,
   2428436474, 2756734187, 3204031479, 3329325298]

/-- The eight big-endian length bytes closing a padded message of `n`
bits. -/
def lenBytes (n : Nat) : List Nat :=
  [n / 2 ^ 56 % 256, n / 2 ^ 48 % 256, n / 2 ^ 40 % 256, n / 2 ^ 32 % 256,
   n / 2 ^ 24 % 256, n / 2 ^ 16 % 256, n / 2 ^ 8 % 256, n % 256]

/-- FIPS 180-4 padding: append `0x80`, zero bytes up to 56 mod 64, then
the 64-bit big-endian bit length. -/
def padMessage (msg : List Nat) : List Nat :=
  msg ++ [0x80] ++ List.replicate ((119 - msg.length % 64) % 64) 0
      ++ lenBytes (8 * msg.length)

/-- Pack bytes into big-endian 32-bit words, four at a time. -/
def bytesToWords : List Nat → List Nat
  | b0 :: b1 :: b2 :: b3 :: rest =>
      (((b0 * 256 + b1) * 256 + b2) * 256 + b3) :: bytesToWords rest
  | _ => []

/-- One schedule-extension step over the reversed schedule (most recent
word first): indices 1, 6, 14, 15 from the head are W(t-2), W(t-7),
W(t-15), W(t-16). -/
def scheduleStep (wrev : List Nat) : List Nat :=
  w32 (smallSigma1 (wrev.getD 1 0) + wrev.getD 6 0
        + smallSigma0 (wrev.getD 14 0) + wrev.getD 15 0) :: wrev

/-- Iterate a function `n` times. -/
def iterFun (f : α → α) : Nat → α → α
  | 0, a => a
  | n + 1, a => iterFun f n (f a)

/-- The 64-entry message schedule of one block. -/
def messageSchedule (block : List Nat) : List Nat :=
  (iterFun scheduleStep 48 (bytesToWords block).reverse).reverse

/-- One SHA-256 compression round, consuming one (constant, schedule
word) pair. -/
def roundStep (st : Digest8) (kw : Nat × Nat) : Digest8 :=
  let T1 := w32 (st.h + bigSigma1 st.e + chFun st.e st.f st.g + kw.1 + kw.2)
  let T2 := w32 (bigSigma0 st.a + majFun st.a st.b st.c)
  ⟨w32 (T1 + T2), st.a, st.b, st.c, w32 (st.d + T1), st.e, st.f, st.g⟩

/-- Compress one 64-byte block into the chaining state. -/
def compress (H : Digest8) (block : List Nat) : Digest8 :=
  let st := (sha256K.zip (messageSchedule block)).foldl roundStep H
  ⟨w32 (H.a + st.a), w32 (H.b + st.b), w32 (H.c + st.c), w32 (H.d + st.d),
   w32 (H.e + st.e), w32 (H.f + st.f), w32 (H.g + st.g), w32 (H.h + st.h)⟩

/-- Fold the compression over successive 64-byte blocks; the fuel is any
bound on the block count (the padded length is used below). -/
def processBlocks : Nat → Digest8 → List Nat → Digest8
  | 0, H, _ => H
  | _ + 1, H, [] => H
  | fuel + 1, H, bytes => processBlocks fuel (compress H (bytes.take 64)) (bytes.drop 64)

/-- The four big-endian bytes of a 32-bit word. -/
def wordBytes (w : Nat) : List Nat :=
  [w / 16777216 % 256, w / 65536 % 256, w / 256 % 256, w % 256]

/-- The 32 digest bytes of a final chaining state. -/
def digestBytes (d : Digest8) : List Nat :=
  wordBytes d.a ++ wordBytes d.b ++ wordBytes d.c ++ wordBytes d.d
    ++ wordBytes d.e ++ wordBytes d.f ++ wordBytes d.g ++ wordBytes d.h

/-- SHA-256 of a byte sequence, as its 32 digest bytes. -/
def sha256Bytes (msg : List Nat) : List Nat :=
  digestBytes (processBlocks (padMessage msg).length sha256Init (padMessage msg))

/-- One lowercase hex digit, as `Number.prototype.toString(16)` renders
values below 16. -/
def hexChar : Nat → Char
  | 0 => '0' | 1 => '1' | 2 => '2' | 3 => '3'
  | 4 => '4' | 5 => '5' | 6 => '6' | 7 => '7'
  | 8 => '8' | 9 => '9' | 10 => 'a' | 11 => 'b'
  | 12 => 'c' | 13 => 'd' | 14 => 'e' | _ => 'f'

/-- The two characters of `b.toString(16).padStart(2, "0")` for a byte. -/
def byteHexChars (b : Nat) : List Char := [hexChar (b / 16), hexChar (b % 16)]

/-- The fingerprint `handleFile` computes and displays: the SHA-256
digest bytes, each rendered as two lowercase hex characters, joined. -/
def handleFileHash (fileBytes : List Nat) : String :=
  String.mk ((sha256Bytes fileBytes).flatMap byteHexChars)

/-- Is the character a lowercase hex digit (a decimal digit or one of
the letters between a and f)? -/
def isLowerHexChar (c : Char) : Bool :=
  decide (('0' ≤ c ∧ c ≤ '9') ∨ ('a' ≤ c ∧ c ≤ 'f'))

/-- Is every character of the string a lowercase hex digit? -/
def allLowerHex (s : String) : Bool := s.data.all isLowerHexChar

/-! ## Registration coordinator

Both ledger-enabled register flows, as functions of the results of
their external calls.  The web3 variant runs upload → contract fetch →
wallet → gas estimate (with hardcoded fallback) → send → confirm, each
failure caught at its own step; the ethers variant runs a wallet-connect
prelude (which fetches the contract configuration), then upload →
contract call → confirm inside one try whose catch reports every thrown
error the same way. -/

/-- An HTTP reply: the `ok` flag and the parsed body, `none` when the
body failed to parse as JSON. -/
structure HttpReply (α : Type) where
  ok : Bool
  json : Option α
deriving DecidableEq

/-- The body of a successful `POST /api/upload` reply. -/
structure UploadJson where
  success : Bool
  documentID : String
  fileName : String
  fileHash : String
  error : Option String
deriving DecidableEq

/-- The body of a `GET /api/contract` reply: truthiness of the ABI
field, and the address field. -/
structure ContractJson where
  contract_abi : Bool
  contract_address : Option String
deriving DecidableEq

/-- The body of a `POST /api/confirm_register` reply. -/
structure ConfirmJson where
  success : Bool
deriving DecidableEq

/-- What the web3 `send` event stream delivered: the error event, or
the receipt of a mined transaction. -/
inductive TxEvent
  | txError
  | mined (txHash : String)
deriving DecidableEq

/-- The results of the external calls one web3-variant registration
attempt can make, `.error` marking a thrown fetch. -/
structure Web3Env where
  upload : Except Unit (HttpReply UploadJson)
  contractMeta : Except Unit (HttpReply ContractJson)
  wallet : Except String String
  gasEstimate : Except Unit Nat
  tx : TxEvent
  confirm : Except Unit (HttpReply ConfirmJson)

/-- The terminal report of a registration attempt, one constructor per
distinct way the source ends the attempt. -/
inductive RegOutcome
  | stageFailed (error : Option String)
  | ledgerConfigUnavailable
  | walletUnavailable (msg : String)
  | txFailed
  | confirmFailed (txHash : String)
  | registered (documentID fileHash txHash : String)
  | flowError
  | registerFailed (msg : String)
  | notStarted
deriving DecidableEq

/-- Which external interactions the attempt performed. -/
structure Effects where
  uploadAttempted : Bool
  contractFetchAttempted : Bool
  walletRequested : Bool
  txSubmitted : Bool
  confirmAttempted : Bool
deriving DecidableEq

/-- The transient attempt state still in scope when the attempt ends. -/
structure AttemptState where
  documentID : Option String
  txHash : Option String
deriving DecidableEq

/-- Everything a registration attempt ends with: the report, the
interactions performed, the gas passed to `send` (web3 variant only),
and the retained attempt state. -/
structure RegResult where
  outcome : RegOutcome
  effects : Effects
  gasUsed : Option Nat
  attempt : AttemptState
deriving DecidableEq

/-- The web3-variant `registerBtn.onclick`: upload, then contract
metadata, then `ensureWeb3`, then gas estimation falling back to the
hardcoded 300000, then `send`; a mined receipt triggers the backend
confirm whose failure (bad reply or thrown fetch) is reported as
mined-but-unconfirmed, with the transaction hash on display. -/
def web3Register (env : Web3Env) : RegResult :=
  match env.upload with
  | .error _ =>
      ⟨.flowError, ⟨true, false, false, false, false⟩, none, ⟨none, none⟩⟩
  | .ok u =>
    match u.json with
    | none => ⟨.stageFailed none, ⟨true, false, false, false, false⟩, none, ⟨none, none⟩⟩
    | some j =>
      if u.ok = true ∧ j.success = true then
        match env.contractMeta with
        | .error _ =>
            ⟨.flowError, ⟨true, true, false, false, false⟩, none,
             ⟨some j.documentID, none⟩⟩
        | .ok c =>
          let metaOk : Bool :=
            match c.json with
            | none => false
            | some m => c.ok && m.contract_abi && truthy m.contract_address
          if metaOk = true then
            match env.wallet with
            | .error msg =>
                ⟨.walletUnavailable msg, ⟨true, true, true, false, false⟩, none,
                 ⟨some j.documentID, none⟩⟩
            | .ok _user =>
              let gas := match env.gasEstimate with
                | .ok g => g
                | .error _ => 300000
              match env.tx with
              | .txError =>
                  ⟨.txFailed, ⟨true, true, true, true, false⟩, some gas,
                   ⟨some j.documentID, none⟩⟩
              | .mined tx =>
                match env.confirm with
                | .error _ =>
                    ⟨.confirmFailed tx, ⟨true, true, true, true, true⟩, some gas,
                     ⟨some j.documentID, some tx⟩⟩
                | .ok cr =>
                  let confirmOk : Bool :=
                    match cr.json with
                    | none => false
                    | some cj => cr.ok && cj.success
                  if confirmOk = true then
                    ⟨.registered j.documentID j.fileHash tx, ⟨true, true, true, true, true⟩,
                     some gas, ⟨some j.documentID, some tx⟩⟩
                  else
                    ⟨.confirmFailed tx, ⟨true, true, true, true, true⟩, some gas,
                     ⟨some j.documentID, some tx⟩⟩
          else
            ⟨.ledgerConfigUnavailable, ⟨true, true, false, false, false⟩, none,
             ⟨some j.documentID, none⟩⟩
      else
        ⟨.stageFailed j.error, ⟨true, false, false, false, false⟩, none, ⟨none, none⟩⟩

/-- An error thrown by the ethers contract call, as the catch reads it:
a provider code and a message. -/
structure EthersErr where
  code : Int
  msg : String
deriving DecidableEq

/-- The message `registerOnBlockchain` rethrows for a failed contract
call: user rejection, insufficient funds, a gas-classified failure, or
the raw message with a generic default. -/
def classifyEthersErr (e : EthersErr) : String :=
  if e.code = 4001 then "Transaction rejected by user"
  else if e.code = -32603 then "Insufficient funds for gas"
  else if e.msg ≠ "" ∧ occursIn "gas" e.msg = true then
    "Gas estimation failed. Check wallet balance."
  else if e.msg = "" then "Blockchain transaction failed"
  else e.msg

/-- A mined receipt as the ethers flow reads it. -/
structure EthersReceipt where
  txHash : String
  blockNumber : Nat
  gasUsed : Nat
deriving DecidableEq

/-- How the wallet-connect prelude of the ethers flow went when the
wallet was not yet connected: no provider installed, a throw before the
contract fetch, or a completed connect carrying the contract fetch
result (`initializeContract` swallows its own failures). -/
inductive ConnectAttempt
  | noMetaMask
  | connectThrew (code : Int)
  | connected (contractMeta : Except Unit (HttpReply ContractJson))

/-- An ethers upload reply; a thrown fetch or body parse is `.error`
with the thrown message, reaching the one catch of the flow. -/
structure EthersUpload where
  ok : Bool
  json : UploadJson
deriving DecidableEq

/-- The results of the external calls one ethers-variant registration
attempt can make. -/
structure EthersEnv where
  walletConnected : Bool
  contractReadyPre : Bool
  connect : ConnectAttempt
  upload : Except String EthersUpload
  blockchain : Except EthersErr EthersReceipt
  confirm : Except String Bool

/-- `uploadData.error || "Upload failed"`. -/
def errOr (o : Option String) : String :=
  match o with
  | none => "Upload failed"
  | some s => if s = "" then "Upload failed" else s

/-- The ethers-variant `registerBtn.onclick`: a wallet-connect prelude
when not yet connected (its `initializeContract` fetches the contract
configuration before any upload), then upload, contract call and
confirm inside a single try; every thrown error lands in one catch that
reports the message, retaining neither document id nor transaction
hash. -/
def ethersRegister (env : EthersEnv) : RegResult :=
  let pre : Option (Bool × Bool) :=
    if env.walletConnected = true then some (false, env.contractReadyPre)
    else
      match env.connect with
      | .noMetaMask => none
      | .connectThrew _ => none
      | .connected cm =>
          some (true,
            match cm with
            | .error _ => false
            | .ok c =>
              match c.json with
              | none => false
              | some m => m.contract_abi && truthy m.contract_address)
  match pre with
  | none =>
      ⟨.notStarted, ⟨false, false, !env.walletConnected, false, false⟩, none, ⟨none, none⟩⟩
  | some (cf, ready) =>
    match env.upload with
    | .error msg =>
        ⟨.registerFailed msg, ⟨true, cf, !env.walletConnected, false, false⟩, none,
         ⟨none, none⟩⟩
    | .ok u =>
      if u.ok = true ∧ u.json.success = true then
        if ready = true then
          match env.blockchain with
          | .error e =>
              ⟨.registerFailed (classifyEthersErr e),
               ⟨true, cf, !env.walletConnected, false, false⟩, none, ⟨none, none⟩⟩
          | .ok rcpt =>
            match env.confirm with
            | .error msg =>
                ⟨.registerFailed msg, ⟨true, cf, !env.walletConnected, true, true⟩, none,
                 ⟨none, none⟩⟩
            | .ok okFlag =>
              if okFlag = true then
                ⟨.registered u.json.documentID u.json.fileHash rcpt.txHash,
                 ⟨true, cf, !env.walletConnected, true, true⟩, none,
                 ⟨some u.json.documentID, some rcpt.txHash⟩⟩
              else
                ⟨.registerFailed "Failed to confirm registration with backend",
                 ⟨true, cf, !env.walletConnected, true, true⟩, none, ⟨none, none⟩⟩
        else
          ⟨.registerFailed "Wallet not connected. Please connect MetaMask first.",
           ⟨true, cf, !env.walletConnected, false, false⟩, none, ⟨none, none⟩⟩
      else
        ⟨.registerFailed (errOr u.json.error), ⟨true, cf, !env.walletConnected, false, false⟩,
         none, ⟨none, none⟩⟩

/-! ## Backend record store

Modelled from the spec: the backend itself is not part of these sources;
its record store and per-endpoint transitions follow the spec data
model — `POST /api/upload` creates a staged record, `POST
/api/confirm_register` marks the named record confirmed, and the verify,
listing, stats, history and contract endpoints are read-only with
respect to DocumentRecord. -/
def applyEndpoint (st : List DocumentRecord) (e : Endpoint) : List DocumentRecord :=
  match e with
  | .uploadReq r => st ++ [r]
  | .confirmReq id tx =>
      st.map fun d =>
        if d.documentID = id then { d with registered := true, blockchainTx := some tx } else d
  | _ => st

/-- Endpoints that leave the record store untouched. -/
def readOnlyEndpoint : Endpoint → Bool
  | .uploadReq _ => false
  | .confirmReq _ _ => false
  | _ => true

/-! ## Ethers verify dispatch

The ethers-variant `verifyBtn.onclick` has no stored-hash comparison
and no registry scan: verified flag, then a case-sensitive
tamper-substring check on `data.reason || "unknown"`, else
not-registered. -/

/-- The ethers verify handler; `.error` is a thrown fetch or body
parse, reaching the catch. -/
def ethersVerifyOutcome (computedHash : String)
    (reply : Except String VerifyReply) : VOutcome :=
  match reply with
  | .error _ => .serverError
  | .ok d =>
    if d.verified = true then
      .verified (if truthy d.computed_hash = true then jsStr d.computed_hash else computedHash)
        d.documentID d.blockchain_tx
    else
      let reason := match d.reason with
        | none => "unknown"
        | some r => if r = "" then "unknown" else r
      if occursIn "tamper" reason = true ∨ occursIn "mismatch" reason = true then
        .tampered computedHash d.stored_hash none none
      else .notRegistered computedHash

/-- The backend requests the ethers verify handler issues. -/
def ethersVerifyCalls (reply : Except String VerifyReply) : List Endpoint :=
  match reply with
  | .error _ => [.verifyReq, .historyReq]
  | .ok _ => [.verifyReq, .statsReq, .historyReq]

/-! ## Concrete scenarios

Named environments used by the concrete checks below. -/

/-- Web3 flow: staged as `d1`, contract configuration present, wallet
connected, gas estimated, mined as `0xT1`, backend confirm fetch threw. -/
def envW3ConfirmErr : Web3Env :=
  { upload := .ok ⟨true, some ⟨true, "d1", "f.txt", "abc", none⟩⟩
    contractMeta := .ok ⟨true, some ⟨true, some "0xC0"⟩⟩
    wallet := .ok "0xA1"
    gasEstimate := .ok 100000
    tx := .mined "0xT1"
    confirm := .error () }

/-- Web3 flow: as above but the gas estimation threw and the confirm
succeeded. -/
def envW3GasFallback : Web3Env :=
  { upload := .ok ⟨true, some ⟨true, "d1", "f.txt", "abc", none⟩⟩
    contractMeta := .ok ⟨true, some ⟨true, some "0xC0"⟩⟩
    wallet := .ok "0xA1"
    gasEstimate := .error ()
    tx := .mined "0xT1"
    confirm := .ok ⟨true, some ⟨true⟩⟩ }

/-- Web3 flow: the backend rejected the upload. -/
def envW3StageFail : Web3Env :=
  { upload := .ok ⟨false, some ⟨false, "", "", "", some "disk full"⟩⟩
    contractMeta := .ok ⟨true, some ⟨true, some "0xC0"⟩⟩
    wallet := .ok "0xA1"
    gasEstimate := .ok 100000
    tx := .mined "0xT1"
    confirm := .ok ⟨true, some ⟨true⟩⟩ }

/-- Ethers flow: wallet already connected and contract ready, staged as
`d1`, mined as `0xT1`, but the backend confirm reply was not ok. -/
def envEthConfirmLost : EthersEnv :=
  { walletConnected := true
    contractReadyPre := true
    connect := .noMetaMask
    upload := .ok ⟨true, ⟨true, "d1", "f.txt", "abc", none⟩⟩
    blockchain := .ok ⟨"0xT1", 5, 21000⟩
    confirm := .ok false }

/-- Ethers flow: the contract call threw a gas-classified error before
any receipt existed. -/
def envEthGasErr : EthersEnv :=
  { walletConnected := true
    contractReadyPre := true
    connect := .noMetaMask
    upload := .ok ⟨true, ⟨true, "d1", "f.txt", "abc", none⟩⟩
    blockchain := .error ⟨0, "cannot estimate gas"⟩
    confirm := .ok true }

/-- Ethers flow: wallet not yet connected, so the connect prelude ran and
fetched the contract configuration; the upload then failed. -/
def envEthStagePrelude : EthersEnv :=
  { walletConnected := false
    contractReadyPre := false
    connect := .connected (.ok ⟨true, some ⟨true, some "0xC0"⟩⟩)
    upload := .ok ⟨false, ⟨false, "", "", "", some "disk full"⟩⟩
    blockchain := .ok ⟨"0xT1", 5, 21000⟩
    confirm := .ok true }

/-! ## Supporting lemmas -/

/-- `find?` only depends on the pointwise behaviour of its predicate. -/
theorem find?_congrPred (p q : α → Bool) (h : ∀ a, p a = q a) :
    ∀ l : List α, l.find? p = l.find? q := by
  intro l
  induction l with
  | nil => rfl
  | cons a t ih => simp [List.find?, h a, ih]

/-- Read-only endpoints leave the record store untouched. -/
theorem applyEndpoint_readOnly (e : Endpoint) (h : readOnlyEndpoint e = true)
    (st : List DocumentRecord) : applyEndpoint st e = st := by
  cases e <;> simp_all [readOnlyEndpoint, applyEndpoint]

/-- A reply that escapes every pre-scan strategy sends the handler to
the fallback scan, threading its reason along. -/
theorem verifyRun_fallsThrough (ch : String) (reply : Except Unit (Option VerifyReply))
    (reg : RegistryFetch) (h : reachesFallback reply = true) :
    verifyRun ch reply reg = fallbackRun ch (replyReason reply) reg := by
  cases reply with
  | error e => simp [reachesFallback] at h
  | ok o =>
    cases o with
    | none => rfl
    | some d =>
      simp only [reachesFallback] at h
      simp only [verifyRun, replyReason]
      split_ifs at h ⊢ <;> first | rfl | simp_all

/-- Two hex characters per byte. -/
theorem flatMap_byteHexChars_length (l : List Nat) :
    (l.flatMap byteHexChars).length = 2 * l.length := by
  induction l with
  | nil => rfl
  | cons b t ih => simp [List.flatMap_cons, byteHexChars, ih]; omega

/-- A final chaining state always renders to 32 bytes. -/
theorem digestBytes_length (d : Digest8) : (digestBytes d).length = 32 := by
  simp [digestBytes, wordBytes]

/-- Every value `hexChar` produces is a lowercase hex digit. -/
theorem hexChar_lowerHex (n : Nat) : isLowerHexChar (hexChar n) = true := by
  match n with
  | 0 | 1 | 2 | 3 | 4 | 5 | 6 | 7 | 8 | 9 | 10 | 11 | 12 | 13 | 14 => rfl
  | n + 15 => rfl

/-- Digest rendering produces lowercase hex digits only. -/
theorem flatMap_byteHexChars_lowerHex (l : List Nat) :
    (l.flatMap byteHexChars).all isLowerHexChar = true := by
  induction l with
  | nil => rfl
  | cons b t ih =>
    simp [List.flatMap_cons, byteHexChars, ih, hexChar_lowerHex]

/-- Every value `hexChar` produces is fixed by `Char.toLower`. -/
theorem hexChar_toLower_fixed (n : Nat) : (hexChar n).toLower = hexChar n := by
  match n with
  | 0 | 1 | 2 | 3 | 4 | 5 | 6 | 7 | 8 | 9 | 10 | 11 | 12 | 13 | 14 => decide
  | n + 15 => exact (by decide : (hexChar 15).toLower = hexChar 15)

/-- `hexChar` never produces the letter of a `0x` lead. -/
theorem hexChar_ne_x (n : Nat) : hexChar n ≠ 'x' := by
  match n with
  | 0 | 1 | 2 | 3 | 4 | 5 | 6 | 7 | 8 | 9 | 10 | 11 | 12 | 13 | 14 => decide
  | n + 15 => exact (by decide : hexChar 15 ≠ 'x')

/-- A rendered digest is fixed by character lower-casing. -/
theorem flatMap_byteHexChars_toLower (l : List Nat) :
    (l.flatMap byteHexChars).map Char.toLower = l.flatMap byteHexChars := by
  induction l with
  | nil => rfl
  | cons b t ih =>
    simp [List.flatMap_cons, byteHexChars, ih, hexChar_toLower_fixed]

/-- `stripHexMark` does not touch a rendered digest: its second
character is a hex digit, never the letter of a `0x` lead. -/
theorem stripHexMark_hexDigest (l : List Nat) :
    stripHexMark (String.mk (l.flatMap byteHexChars))
      = String.mk (l.flatMap byteHexChars) := by
  cases l with
  | nil => rfl
  | cons b t =>
    show (if hexChar (b / 16) = '0' ∧ hexChar (b % 16) = 'x'
            then String.mk (t.flatMap byteHexChars)
            else String.mk ((b :: t).flatMap byteHexChars))
        = String.mk ((b :: t).flatMap byteHexChars)
    rw [if_neg fun hc => hexChar_ne_x (b % 16) hc.2]

/-- A computed fingerprint has exactly 64 characters. -/
theorem handleFileHash_length (bs : List Nat) : (handleFileHash bs).length = 64 := by
  show ((sha256Bytes bs).flatMap byteHexChars).length = 64
  rw [flatMap_byteHexChars_length]
  show 2 * (digestBytes _).length = 64
  rw [digestBytes_length]

/-- A computed fingerprint consists of lowercase hex digits only. -/
theorem handleFileHash_lowerHex (bs : List Nat) :
    allLowerHex (handleFileHash bs) = true := by
  show ((sha256Bytes bs).flatMap byteHexChars).all isLowerHexChar = true
  exact flatMap_byteHexChars_lowerHex _

/-- A computed fingerprint is already in normal form: it has no `0x`
lead and is already lowercase, so `normalizeHash` fixes it. -/
theorem handleFileHash_normalized (bs : List Nat) :
    normalizeHash (handleFileHash bs) = handleFileHash bs := by
  show normalizeHash (String.mk ((sha256Bytes bs).flatMap byteHexChars))
      = String.mk ((sha256Bytes bs).flatMap byteHexChars)
  unfold normalizeHash
  rw [stripHexMark_hexDigest]
  show String.mk (((sha256Bytes bs).flatMap byteHexChars).map Char.toLower) = _
  rw [flatMap_byteHexChars_toLower]

/-- A computed fingerprint is never the empty string. -/
theorem handleFileHash_ne_empty (bs : List Nat) : handleFileHash bs ≠ "" := by
  intro h
  have := handleFileHash_length bs
  rw [h] at this
  simp at this

/-- A computed fingerprint normalises to something nonempty. -/
theorem handleFileHash_norm_ne_empty (bs : List Nat) :
    normalizeHash (handleFileHash bs) ≠ "" := by
  rw [handleFileHash_normalized]
  exact handleFileHash_ne_empty bs

/-! ## Claims -/

/-- C1: a backend verify reply whose reason classifies as
tampering/hash mismatch (and not as not-registered) yields Tampered
carrying the stored hash, whatever the fallback registry scan holds,
and in particular never NotRegistered: the strategies apply in the
fixed order verified flag, not-registered reason, tamper reason,
stored-hash comparison, fallback scan. -/
theorem C1_tamper_reason_precedence (ch : String) (d : VerifyReply)
    (reg reg' : RegistryFetch)
    (hv : d.verified = false)
    (hr : truthy d.reason = true)
    (hnr : isNotRegisteredReason (jsStr d.reason) = false)
    (ht : isTamperReason (jsStr d.reason) = true) :
    verifyOutcome ch (.ok (some d)) reg
        = .tampered ch d.stored_hash d.documentID d.blockchain_tx ∧
    verifyOutcome ch (.ok (some d)) reg' ≠ .notRegistered ch := by
  have key : ∀ r : RegistryFetch, verifyOutcome ch (.ok (some d)) r
      = .tampered ch d.stored_hash d.documentID d.blockchain_tx := by
    intro r
    unfold verifyOutcome verifyRun
    simp [hv, hr, hnr, ht]
  exact ⟨key reg, by rw [key reg']; simp⟩

/-- C1 at the concrete reply of the claim: `{verified:false,
reason:"hash mismatch", stored_hash:"X"}` is Tampered with stored hash
`X`, and not NotRegistered even when the registry listing fetch would
have failed. -/
theorem C1_witness :
    verifyOutcome "e3b0c44298fc1c149afbf4c8996fb92427ae41e4649b934ca495991b7852b855"
        (.ok (some ⟨false, some "hash mismatch", some "X", none, none, none⟩)) (.docs [])
      = .tampered "e3b0c44298fc1c149afbf4c8996fb92427ae41e4649b934ca495991b7852b855"
          (some "X") none none ∧
    verifyOutcome "e3b0c44298fc1c149afbf4c8996fb92427ae41e4649b934ca495991b7852b855"
        (.ok (some ⟨false, some "hash mismatch", some "X", none, none, none⟩)) .fetchError
      ≠ .notRegistered "e3b0c44298fc1c149afbf4c8996fb92427ae41e4649b934ca495991b7852b855" :=
  C1_tamper_reason_precedence _ ⟨false, some "hash mismatch", some "X", none, none, none⟩
    (.docs []) .fetchError rfl (by decide) (by decide) (by decide)

/-- C2 fails as stated: a reply carrying the truthy stored hash `"0x"`,
which normalises to the empty string, differs from the computed
fingerprint yet does not yield Tampered — the comparison yields no
decision and the handler falls through to the registry scan, here
ending NotRegistered. -/
theorem C2_counterexample :
    verifyOutcome "e3b0c44298fc1c149afbf4c8996fb92427ae41e4649b934ca495991b7852b855"
        (.ok (some ⟨false, none, some "0x", none, none, none⟩)) (.docs [])
      = .notRegistered "e3b0c44298fc1c149afbf4c8996fb92427ae41e4649b934ca495991b7852b855" ∧
    verifyOutcome "e3b0c44298fc1c149afbf4c8996fb92427ae41e4649b934ca495991b7852b855"
        (.ok (some ⟨false, none, some "0x", none, none, none⟩)) (.docs [])
      ≠ .tampered "e3b0c44298fc1c149afbf4c8996fb92427ae41e4649b934ca495991b7852b855"
          (some "0x") none none := by
  exact ⟨by decide, by decide⟩

/-- C2 as amended: when the reply carries a stored hash, no verdict and
no classified reason, both sides are normalised by stripping a `0x`
lead and lower-casing and compared — provided the normalised stored
hash is nonempty, equal yields Verified and unequal yields Tampered,
in either case without consulting the fallback scan (the registry
argument is arbitrary, so a failing listing fetch cannot change the
outcome); `0xABCD` and `abcd` normalise alike. -/
theorem C2_stored_hash_comparison (ch : String) (d : VerifyReply) (reg : RegistryFetch)
    (hv : d.verified = false)
    (hr : truthy d.reason = false ∨
      (isNotRegisteredReason (jsStr d.reason) = false ∧ isTamperReason (jsStr d.reason) = false))
    (hs : truthy d.stored_hash = true)
    (hne : normalizeHash (jsStr d.stored_hash) ≠ "") :
    (normalizeHash (jsStr d.stored_hash) = normalizeHash ch →
      verifyOutcome ch (.ok (some d)) reg = .verified ch d.documentID d.blockchain_tx) ∧
    (normalizeHash (jsStr d.stored_hash) ≠ normalizeHash ch →
      verifyOutcome ch (.ok (some d)) reg
        = .tampered ch d.stored_hash d.documentID d.blockchain_tx) ∧
    normalizeHash "0xABCD" = normalizeHash "abcd" := by
  refine ⟨?_, ?_, by decide⟩
  · intro hcmp
    have hne2 : normalizeHash ch ≠ "" := hcmp ▸ hne
    unfold verifyOutcome verifyRun
    rcases hr with hr | ⟨hr1, hr2⟩
    · simp [hv, hr, hs, hne, hcmp, hne2]
    · simp [hv, hr1, hr2, hs, hne, hcmp, hne2]
  · intro hcmp
    unfold verifyOutcome verifyRun
    rcases hr with hr | ⟨hr1, hr2⟩
    · simp [hv, hr, hs, hne, hcmp]
    · simp [hv, hr1, hr2, hs, hne, hcmp]

/-- C2 as amended, concretely: stored hash `0xABCD` against computed
fingerprint `abcd` is Verified even though the registry listing fetch
would have thrown. -/
theorem C2_witness :
    verifyOutcome "abcd" (.ok (some ⟨false, none, some "0xABCD", none, none, none⟩)) .fetchError
      = .verified "abcd" none none :=
  (C2_stored_hash_comparison "abcd" ⟨false, none, some "0xABCD", none, none, none⟩ .fetchError
    rfl (Or.inl (by decide)) (by decide) (by decide)).1 (by decide)

/-- C3: when the reply decides nothing (no verified flag, no classified
reason, no stored hash), the handler fetches the full document listing;
it searches linearly, and the first record whose case/prefix-normalised
fileHash equals the normalised fingerprint yields Verified carrying
that record id and its blockchainTx, while no match yields
NotRegistered. The fingerprint is a freshly computed digest, whose
normal form is never empty, so the source predicate coincides with
plain normalised equality. -/
theorem C3_fallback_scan (ch : String) (d : VerifyReply) (ds : List DocumentRecord)
    (hfp : ∃ bs, ch = handleFileHash bs)
    (hv : d.verified = false)
    (hr : truthy d.reason = false ∨
      (isNotRegisteredReason (jsStr d.reason) = false ∧ isTamperReason (jsStr d.reason) = false))
    (hs : truthy d.stored_hash = false) :
    verifyCalls ch (.ok (some d)) (.docs ds)
        = [.verifyReq, .documentsList, .statsReq, .historyReq] ∧
    (∀ m, ds.find? (fun r => decide (normalizeHash (jsStr r.fileHash) = normalizeHash ch))
        = some m →
      verifyOutcome ch (.ok (some d)) (.docs ds)
        = .verified (if truthy m.fileHash = true then jsStr m.fileHash else ch)
            (some m.documentID) m.blockchainTx) ∧
    (ds.find? (fun r => decide (normalizeHash (jsStr r.fileHash) = normalizeHash ch)) = none →
      verifyOutcome ch (.ok (some d)) (.docs ds) = .notRegistered ch) := by
  obtain ⟨bs, rfl⟩ := hfp
  have hch := handleFileHash_norm_ne_empty bs
  have hpred : ∀ r : DocumentRecord,
      fallbackMatchPred (handleFileHash bs) r
        = decide (normalizeHash (jsStr r.fileHash) = normalizeHash (handleFileHash bs)) := by
    intro r
    unfold fallbackMatchPred
    by_cases h : normalizeHash (jsStr r.fileHash) = normalizeHash (handleFileHash bs)
    · simp [h, hch]
    · simp [h]
  have hfall : reachesFallback (.ok (some d)) = true := by
    unfold reachesFallback
    rcases hr with hr | ⟨hr1, hr2⟩
    · simp [hv, hr, hs]
    · simp [hv, hr1, hr2, hs]
  have hrun := verifyRun_fallsThrough (handleFileHash bs) (.ok (some d)) (.docs ds) hfall
  have hfind := find?_congrPred (fallbackMatchPred (handleFileHash bs))
      (fun r => decide (normalizeHash (jsStr r.fileHash) = normalizeHash (handleFileHash bs)))
      hpred ds
  refine ⟨?_, ?_, ?_⟩
  · show (verifyRun _ _ _).2 = _
    rw [hrun]
    rfl
  · intro m hm
    show (verifyRun _ _ _).1 = _
    rw [hrun]
    show (fallbackRun _ _ _).1 = _
    simp only [fallbackRun]
    rw [hfind, hm]
  · intro hm
    show (verifyRun _ _ _).1 = _
    rw [hrun]
    show (fallbackRun _ _ _).1 = _
    simp only [fallbackRun]
    rw [hfind, hm]

set_option maxRecDepth 8000 in
/-- C3 concretely: an undecided reply plus a registry holding `d1` with
the `0x`-marked uppercase form of the empty-file digest verifies the
empty file, carrying `d1` and its transaction. -/
theorem C3_witness :
    verifyOutcome (handleFileHash []) (.ok (some ⟨false, none, none, none, none, none⟩))
        (.docs [⟨"d1", none,
          some "0xE3B0C44298FC1C149AFBF4C8996FB92427AE41E4649B934CA495991B7852B855",
          true, some "0xT1"⟩])
      = .verified "0xE3B0C44298FC1C149AFBF4C8996FB92427AE41E4649B934CA495991B7852B855"
          (some "d1") (some "0xT1") :=
  (C3_fallback_scan (handleFileHash []) ⟨false, none, none, none, none, none⟩
      [⟨"d1", none, some "0xE3B0C44298FC1C149AFBF4C8996FB92427AE41E4649B934CA495991B7852B855",
        true, some "0xT1"⟩]
      ⟨[], rfl⟩ rfl (Or.inl rfl) rfl).2.1
    ⟨"d1", none, some "0xE3B0C44298FC1C149AFBF4C8996FB92427AE41E4649B934CA495991B7852B855",
      true, some "0xT1"⟩ (by decide)

/-- C4: when the handler reaches the fallback scan and the listing
fetch or its parsing throws, the attempt reports the distinct
scan-failure outcome (carrying the undecided reason), and in
particular never defaults to NotRegistered. -/
theorem C4_scan_failure_distinct (ch : String) (reply : Except Unit (Option VerifyReply))
    (hfall : reachesFallback reply = true) :
    verifyOutcome ch reply .fetchError = .reconciliationFailed (replyReason reply) ∧
    ∀ s, verifyOutcome ch reply .fetchError ≠ .notRegistered s := by
  have hrun := verifyRun_fallsThrough ch reply .fetchError hfall
  constructor
  · show (verifyRun _ _ _).1 = _
    rw [hrun]
    rfl
  · intro s
    show (verifyRun _ _ _).1 ≠ _
    rw [hrun]
    simp [fallbackRun]

/-- C4 concretely: an unparseable verify reply with a thrown listing
fetch is the scan-failure report, not NotRegistered. -/
theorem C4_witness :
    verifyOutcome "abcd" (.ok none) .fetchError = .reconciliationFailed none ∧
    verifyOutcome "abcd" (.ok none) .fetchError ≠ .notRegistered "abcd" :=
  ⟨(C4_scan_failure_distinct "abcd" (.ok none) rfl).1,
   (C4_scan_failure_distinct "abcd" (.ok none) rfl).2 "abcd"⟩

/-- C10: a truthy stored hash that normalises to the empty string (such
as the literal `0x`) gives the stored-hash comparison no decision — the
attempt is exactly the fallback scan — and a record whose normalised
fileHash is empty never matches during that scan, even when the
computed fingerprint normalises to the empty string as well. -/
theorem C10_empty_stored_hash (ch : String) (d : VerifyReply) (reg : RegistryFetch)
    (hv : d.verified = false)
    (hr : truthy d.reason = false ∨
      (isNotRegisteredReason (jsStr d.reason) = false ∧ isTamperReason (jsStr d.reason) = false))
    (hs : truthy d.stored_hash = true)
    (hempty : normalizeHash (jsStr d.stored_hash) = "") :
    verifyOutcome ch (.ok (some d)) reg = fallbackScanOutcome ch d.reason reg ∧
    (∀ ds : List DocumentRecord, (∀ r ∈ ds, normalizeHash (jsStr r.fileHash) = "") →
      fallbackScanOutcome ch d.reason (.docs ds) = .notRegistered ch) := by
  constructor
  · have hfall : reachesFallback (.ok (some d)) = true := by
      unfold reachesFallback
      rcases hr with hr | ⟨hr1, hr2⟩
      · simp [hv, hr, hs, hempty]
      · simp [hv, hr1, hr2, hs, hempty]
    have hrun := verifyRun_fallsThrough ch (.ok (some d)) reg hfall
    show (verifyRun _ _ _).1 = _
    rw [hrun]
    rfl
  · intro ds hds
    have hnone : ds.find? (fallbackMatchPred ch) = none := by
      rw [List.find?_eq_none]
      intro r hrmem
      unfold fallbackMatchPred
      simp [hds r hrmem]
    show (fallbackRun _ _ _).1 = _
    simp [fallbackRun, hnone]

/-- C10 concretely: stored hash `0x` with fingerprint `0x` and a
registry entry whose fileHash is empty leaves the comparison undecided
and the scan without a match: NotRegistered. -/
theorem C10_witness :
    verifyOutcome "0x" (.ok (some ⟨false, none, some "0x", none, none, none⟩))
        (.docs [⟨"d1", none, some "", false, none⟩])
      = fallbackScanOutcome "0x" none (.docs [⟨"d1", none, some "", false, none⟩]) ∧
    fallbackScanOutcome "0x" none (.docs [⟨"d1", none, some "", false, none⟩])
      = .notRegistered "0x" :=
  ⟨(C10_empty_stored_hash "0x" ⟨false, none, some "0x", none, none, none⟩
      (.docs [⟨"d1", none, some "", false, none⟩]) rfl (Or.inl rfl) (by decide) (by decide)).1,
   (C10_empty_stored_hash "0x" ⟨false, none, some "0x", none, none, none⟩
      (.docs [⟨"d1", none, some "", false, none⟩]) rfl (Or.inl rfl) (by decide) (by decide)).2
     [⟨"d1", none, some "", false, none⟩] (by decide)⟩

set_option maxRecDepth 8000 in
/-- C8: the hasher is a function of the input bytes (equal inputs give
equal digests); every digest is a 64-character string of lowercase hex
digits only, already in normal form (so no padding and no `0x` lead);
and the digest of the zero-length input is the SHA-256 empty-string
digest. -/
theorem C8_hasher_deterministic_hex :
    (∀ bs bs' : List Nat, bs = bs' → handleFileHash bs = handleFileHash bs') ∧
    (∀ bs : List Nat, (handleFileHash bs).length = 64 ∧
      allLowerHex (handleFileHash bs) = true ∧
      normalizeHash (handleFileHash bs) = handleFileHash bs) ∧
    handleFileHash []
      = "e3b0c44298fc1c149afbf4c8996fb92427ae41e4649b934ca495991b7852b855" := by
  refine ⟨fun bs bs' h => h ▸ rfl,
    fun bs => ⟨handleFileHash_length bs, handleFileHash_lowerHex bs,
      handleFileHash_normalized bs⟩, by decide⟩

/-- C8 at the zero-length input: 64 lowercase hex characters equal to
the well-known empty digest. -/
theorem C8_witness :
    handleFileHash [] = handleFileHash [] ∧
    (handleFileHash []).length = 64 ∧
    handleFileHash []
      = "e3b0c44298fc1c149afbf4c8996fb92427ae41e4649b934ca495991b7852b855" :=
  ⟨C8_hasher_deterministic_hex.1 [] [] rfl,
   (C8_hasher_deterministic_hex.2.1 []).1,
   C8_hasher_deterministic_hex.2.2⟩

/-- C9: every verification attempt, in either verify handler, issues
only the verify request and the read-only listing, stats and history
fetches — never the upload or confirm operations — so folding its
requests over any backend record store leaves the store unchanged. -/
theorem C9_verify_readonly (ch : String) (reply : Except Unit (Option VerifyReply))
    (reg : RegistryFetch) (st : List DocumentRecord)
    (replyE : Except String VerifyReply) :
    (∀ e ∈ verifyCalls ch reply reg, readOnlyEndpoint e = true) ∧
    List.foldl applyEndpoint st (verifyCalls ch reply reg) = st ∧
    (∀ e ∈ ethersVerifyCalls replyE, readOnlyEndpoint e = true) ∧
    List.foldl applyEndpoint st (ethersVerifyCalls replyE) = st := by
  have hshape : verifyCalls ch reply reg = [.verifyReq, .historyReq] ∨
      verifyCalls ch reply reg = decidedCalls ∨
      verifyCalls ch reply reg = [.verifyReq, .documentsList, .historyReq] ∨
      verifyCalls ch reply reg = [.verifyReq, .documentsList, .statsReq, .historyReq] := by
    rcases reply with e | o
    · exact Or.inl rfl
    · rcases o with _ | d
      · simp only [verifyCalls, verifyRun]
        cases reg <;> simp [fallbackRun]
      · simp only [verifyCalls, verifyRun]
        split_ifs <;> first
          | exact Or.inr (Or.inl rfl)
          | cases reg <;> simp [fallbackRun]
  have hshapeE : ethersVerifyCalls replyE = [.verifyReq, .historyReq] ∨
      ethersVerifyCalls replyE = [.verifyReq, .statsReq, .historyReq] := by
    rcases replyE with e | d
    · exact Or.inl rfl
    · exact Or.inr rfl
  refine ⟨?_, ?_, ?_, ?_⟩
  · rcases hshape with h | h | h | h <;> rw [h] <;> decide
  · rcases hshape with h | h | h | h <;> rw [h] <;> simp [applyEndpoint, decidedCalls]
  · rcases hshapeE with h | h <;> rw [h] <;> decide
  · rcases hshapeE with h | h <;> rw [h] <;> simp [applyEndpoint]

/-- C9 concretely: an attempt whose reply parsed to nothing and whose
listing fetch threw leaves a one-record store unchanged, in both
handlers. -/
theorem C9_witness :
    List.foldl applyEndpoint [⟨"d1", none, some "abc", true, some "0xT1"⟩]
        (verifyCalls "abcd" (.ok none) .fetchError)
      = [⟨"d1", none, some "abc", true, some "0xT1"⟩] ∧
    List.foldl applyEndpoint [⟨"d1", none, some "abc", true, some "0xT1"⟩]
        (ethersVerifyCalls (.error "boom"))
      = [⟨"d1", none, some "abc", true, some "0xT1"⟩] :=
  ⟨(C9_verify_readonly "abcd" (.ok none) .fetchError
      [⟨"d1", none, some "abc", true, some "0xT1"⟩] (.error "boom")).2.1,
   (C9_verify_readonly "abcd" (.ok none) .fetchError
      [⟨"d1", none, some "abc", true, some "0xT1"⟩] (.error "boom")).2.2.2⟩

/-- C5 fails as stated for the ethers flow: with the transaction mined
as `0xT1`, a not-ok confirm reply is thrown into the one generic catch —
the report is the ordinary registration failure, not a distinct
mined-but-unconfirmed outcome, and the attempt retains no transaction
hash. -/
theorem C5_counterexample :
    (ethersRegister envEthConfirmLost).outcome
      = .registerFailed "Failed to confirm registration with backend" ∧
    (ethersRegister envEthConfirmLost).outcome ≠ .confirmFailed "0xT1" ∧
    (ethersRegister envEthConfirmLost).attempt = ⟨none, none⟩ := by
  refine ⟨by decide, by decide, by decide⟩

/-- C5 as amended: in the web3 receipt handler, a mined transaction
whose backend confirm call fails (bad reply or thrown fetch) ends in
the distinct mined-but-unconfirmed report carrying the transaction
hash, with the document id and transaction hash both still held in the
attempt state — unlike the stage, transaction and flow failures; the
ethers flow instead folds the same situation into its generic
registration failure and retains no transaction hash. -/
theorem C5_confirm_failure (env : Web3Env) (u : HttpReply UploadJson) (j : UploadJson)
    (c : HttpReply ContractJson) (m : ContractJson) (addr tx : String)
    (h1 : env.upload = .ok u) (h2 : u.json = some j) (h3 : u.ok = true) (h4 : j.success = true)
    (h5 : env.contractMeta = .ok c) (h6 : c.json = some m) (h7 : c.ok = true)
    (h8 : m.contract_abi = true) (h9 : truthy m.contract_address = true)
    (h10 : env.wallet = .ok addr) (h11 : env.tx = .mined tx)
    (h12 : env.confirm = .error () ∨
      ∃ cr : HttpReply ConfirmJson, env.confirm = .ok cr ∧
        (match cr.json with | none => false | some cj => cr.ok && cj.success) = false) :
    (web3Register env).outcome = .confirmFailed tx ∧
    (web3Register env).attempt = ⟨some j.documentID, some tx⟩ ∧
    (∀ e, RegOutcome.confirmFailed tx ≠ .stageFailed e) ∧
    RegOutcome.confirmFailed tx ≠ .txFailed ∧
    RegOutcome.confirmFailed tx ≠ .flowError ∧
    (∀ (envE : EthersEnv) (uE : EthersUpload) (r : EthersReceipt),
      envE.walletConnected = true → envE.contractReadyPre = true →
      envE.upload = .ok uE → uE.ok = true → uE.json.success = true →
      envE.blockchain = .ok r → envE.confirm = .ok false →
      (ethersRegister envE).outcome
          = .registerFailed "Failed to confirm registration with backend" ∧
      (ethersRegister envE).attempt.txHash = none) := by
  refine ⟨?_, ?_, by intro e; simp, by simp, by simp, ?_⟩
  · rcases h12 with h12 | ⟨cr, h12, h13⟩
    · simp [web3Register, h1, h2, h3, h4, h5, h6, h7, h8, h9, h10, h11, h12]
    · simp [web3Register, h1, h2, h3, h4, h5, h6, h7, h8, h9, h10, h11, h12, h13]
  · rcases h12 with h12 | ⟨cr, h12, h13⟩
    · simp [web3Register, h1, h2, h3, h4, h5, h6, h7, h8, h9, h10, h11, h12]
    · simp [web3Register, h1, h2, h3, h4, h5, h6, h7, h8, h9, h10, h11, h12, h13]
  · intro envE uE r hw hready hup hok hsucc hbc hcf
    simp [ethersRegister, hw, hready, hup, hok, hsucc, hbc, hcf]

/-- C5 as amended, concretely: in the web3 flow a thrown confirm fetch
after mining `0xT1` reports mined-but-unconfirmed with both `d1` and
`0xT1` retained. -/
theorem C5_witness :
    (web3Register envW3ConfirmErr).outcome = .confirmFailed "0xT1" ∧
    (web3Register envW3ConfirmErr).attempt = ⟨some "d1", some "0xT1"⟩ :=
  ⟨(C5_confirm_failure envW3ConfirmErr ⟨true, some ⟨true, "d1", "f.txt", "abc", none⟩⟩
      ⟨true, "d1", "f.txt", "abc", none⟩ ⟨true, some ⟨true, some "0xC0"⟩⟩ ⟨true, some "0xC0"⟩
      "0xA1" "0xT1" rfl rfl rfl rfl rfl rfl rfl rfl (by decide) rfl rfl (Or.inl rfl)).1,
   (C5_confirm_failure envW3ConfirmErr ⟨true, some ⟨true, "d1", "f.txt", "abc", none⟩⟩
      ⟨true, "d1", "f.txt", "abc", none⟩ ⟨true, some ⟨true, some "0xC0"⟩⟩ ⟨true, some "0xC0"⟩
      "0xA1" "0xT1" rfl rfl rfl rfl rfl rfl rfl rfl (by decide) rfl rfl (Or.inl rfl)).2.1⟩

/-- C6 fails as stated for the ethers flow: a gas-classified failure of
the contract call (here "cannot estimate gas") terminates the attempt
with the gas-estimation failure message; no fallback gas exists and no
transaction is submitted. -/
theorem C6_counterexample :
    (ethersRegister envEthGasErr).outcome
      = .registerFailed "Gas estimation failed. Check wallet balance." ∧
    (ethersRegister envEthGasErr).effects.txSubmitted = false ∧
    (ethersRegister envEthGasErr).gasUsed = none := by
  refine ⟨by decide, by decide, by decide⟩

/-- C6 as amended: in the web3 flow a thrown gas estimation falls back
to the hardcoded 300000 and the transaction is still submitted with
that gas, whatever the send then delivers; in the ethers flow a
gas-classified failure of the contract call instead terminates the
attempt as a registration failure with no submission. -/
theorem C6_gas_fallback (env : Web3Env) (u : HttpReply UploadJson) (j : UploadJson)
    (c : HttpReply ContractJson) (m : ContractJson) (addr : String)
    (h1 : env.upload = .ok u) (h2 : u.json = some j) (h3 : u.ok = true) (h4 : j.success = true)
    (h5 : env.contractMeta = .ok c) (h6 : c.json = some m) (h7 : c.ok = true)
    (h8 : m.contract_abi = true) (h9 : truthy m.contract_address = true)
    (h10 : env.wallet = .ok addr)
    (hgas : env.gasEstimate = .error ()) :
    (web3Register env).gasUsed = some 300000 ∧
    (web3Register env).effects.txSubmitted = true ∧
    (∀ (envE : EthersEnv) (uE : EthersUpload) (e : EthersErr),
      envE.walletConnected = true → envE.contractReadyPre = true →
      envE.upload = .ok uE → uE.ok = true → uE.json.success = true →
      envE.blockchain = .error e →
      e.code ≠ 4001 → e.code ≠ -32603 → e.msg ≠ "" → occursIn "gas" e.msg = true →
      (ethersRegister envE).outcome
          = .registerFailed "Gas estimation failed. Check wallet balance." ∧
      (ethersRegister envE).effects.txSubmitted = false) := by
  refine ⟨?_, ?_, ?_⟩
  · cases htx : env.tx with
    | txError => simp [web3Register, h1, h2, h3, h4, h5, h6, h7, h8, h9, h10, hgas, htx]
    | mined tx =>
      rcases hcf : env.confirm with e | cr
      · simp [web3Register, h1, h2, h3, h4, h5, h6, h7, h8, h9, h10, hgas, htx, hcf]
      · simp only [web3Register, h1, h2, h3, h4, h5, h6, h7, h8, h9, h10, hgas, htx, hcf]
        split_ifs <;> simp_all
  · cases htx : env.tx with
    | txError => simp [web3Register, h1, h2, h3, h4, h5, h6, h7, h8, h9, h10, hgas, htx]
    | mined tx =>
      rcases hcf : env.confirm with e | cr
      · simp [web3Register, h1, h2, h3, h4, h5, h6, h7, h8, h9, h10, hgas, htx, hcf]
      · simp only [web3Register, h1, h2, h3, h4, h5, h6, h7, h8, h9, h10, hgas, htx, hcf]
        split_ifs <;> simp_all
  · intro envE uE e hw hready hup hok hsucc hbc hc1 hc2 hc3 hc4
    simp [ethersRegister, classifyEthersErr, hw, hready, hup, hok, hsucc, hbc,
      hc1, hc2, hc3, hc4]

/-- C6 as amended, concretely: a thrown web3 gas estimation still
submits with gas 300000 and the attempt completes. -/
theorem C6_witness :
    (web3Register envW3GasFallback).gasUsed = some 300000 ∧
    (web3Register envW3GasFallback).effects.txSubmitted = true :=
  ⟨(C6_gas_fallback envW3GasFallback ⟨true, some ⟨true, "d1", "f.txt", "abc", none⟩⟩
      ⟨true, "d1", "f.txt", "abc", none⟩ ⟨true, some ⟨true, some "0xC0"⟩⟩ ⟨true, some "0xC0"⟩
      "0xA1" rfl rfl rfl rfl rfl rfl rfl rfl (by decide) rfl rfl).1,
   (C6_gas_fallback envW3GasFallback ⟨true, some ⟨true, "d1", "f.txt", "abc", none⟩⟩
      ⟨true, "d1", "f.txt", "abc", none⟩ ⟨true, some ⟨true, some "0xC0"⟩⟩ ⟨true, some "0xC0"⟩
      "0xA1" rfl rfl rfl rfl rfl rfl rfl rfl (by decide) rfl rfl).2.1⟩

/-- C7 fails as stated for the ethers flow: with the wallet not yet
connected, the connect prelude fetched the contract configuration
before the upload; the upload then failed, and the report is the
generic registration failure, not a distinct stage-failure
classification. -/
theorem C7_counterexample :
    (ethersRegister envEthStagePrelude).effects.contractFetchAttempted = true ∧
    (ethersRegister envEthStagePrelude).outcome = .registerFailed "disk full" ∧
    (ethersRegister envEthStagePrelude).outcome ≠ .stageFailed (some "disk full") := by
  refine ⟨by decide, by decide, by decide⟩

/-- C7 as amended: in the web3 flow a stage (upload) failure ends the
attempt with the distinct upload-failure report, and neither the
contract fetch, the wallet, the transaction nor the confirm is
attempted; in the ethers flow a stage failure likewise precludes any
transaction or confirm, but it is reported through the generic
registration-failure handler and the wallet-connect prelude has already
fetched the contract configuration when the wallet was not yet
connected. -/
theorem C7_stage_failure (env : Web3Env) (u : HttpReply UploadJson) (j : UploadJson)
    (h1 : env.upload = .ok u) (h2 : u.json = some j)
    (hf : u.ok = false ∨ j.success = false) :
    (web3Register env).outcome = .stageFailed j.error ∧
    (web3Register env).effects = ⟨true, false, false, false, false⟩ ∧
    (∀ (envE : EthersEnv) (cmE : Except Unit (HttpReply ContractJson)) (uE : EthersUpload),
      envE.walletConnected = false → envE.connect = .connected cmE →
      envE.upload = .ok uE → (uE.ok = false ∨ uE.json.success = false) →
      (ethersRegister envE).outcome = .registerFailed (errOr uE.json.error) ∧
      (ethersRegister envE).effects.txSubmitted = false ∧
      (ethersRegister envE).effects.confirmAttempted = false ∧
      (ethersRegister envE).effects.contractFetchAttempted = true) := by
  refine ⟨?_, ?_, ?_⟩
  · rcases hf with hf | hf <;> simp [web3Register, h1, h2, hf]
  · rcases hf with hf | hf <;> simp [web3Register, h1, h2, hf]
  · intro envE cmE uE hw hcn hup hfE
    rcases hfE with hfE | hfE <;> simp [ethersRegister, hw, hcn, hup, hfE]

/-- C7 as amended, concretely: a rejected web3 upload is the distinct
stage failure and nothing past the upload is touched. -/
theorem C7_witness :
    (web3Register envW3StageFail).outcome = .stageFailed (some "disk full") ∧
    (web3Register envW3StageFail).effects = ⟨true, false, false, false, false⟩ :=
  ⟨(C7_stage_failure envW3StageFail ⟨false, some ⟨false, "", "", "", some "disk full"⟩⟩
      ⟨false, "", "", "", some "disk full"⟩ rfl rfl (Or.inl rfl)).1,
   (C7_stage_failure envW3StageFail ⟨false, some ⟨false, "", "", "", some "disk full"⟩⟩
      ⟨false, "", "", "", some "disk full"⟩ rfl rfl (Or.inl rfl)).2.1⟩
